import Mathlib

/-!
# Clenja core contracts: shallow embedding and verification

Shallow embedding of the three core contracts of the repository —
`PoolVault`, `LoanManager` and `RiskRules` — together with proofs about the
accounting invariants, the repayment-splitting waterfall, the linear interest
formula and the risk-rule validator.

Modelling conventions:
* Solidity `uint256` is modelled as `Nat`.  Solidity ^0.8 uses checked
  arithmetic: every subtraction that could underflow is guarded explicitly
  (the operation fails, returning `none`, exactly where the contract would
  revert).  Additions and multiplications are left exact over `Nat`: an
  overflow revert only removes a trace, it never changes a computed value, so
  every successful concrete execution of the contract is a successful
  execution of the model with the same numbers.
* `address` is modelled as `Nat`, with `0` standing for `address(0)`.
* Reverts are modelled by `Option`: a call that reverts returns `none` and
  leaves the state unchanged (Solidity reverts roll back all state).
* External ERC20 transfers are modelled by recording the transferred amounts
  in the operation's result (the arguments of the `safeTransfer` /
  `safeTransferFrom` calls); the token ledger itself is an external
  collaborator.
-/

namespace Clenja

/-- Addresses are modelled as naturals; `0` is `address(0)`. -/
abbrev Addr := Nat

/-! ## PoolVault (contracts/PoolVault.sol)

State variables of the `PoolVault` contract: share accounting plus the
one-time loan-manager binding.  `owner` is the `Ownable` owner. -/

structure VaultState where
  totalShares : Nat
  totalAssets : Nat
  outstandingLoans : Nat
  shares : Addr → Nat
  loanManager : Addr
  loanManagerSet : Bool
  owner : Addr

/-- `PoolVault.convertToShares`: 1:1 on an empty pool, otherwise
`assets * totalShares / totalAssets` with floor division. -/
def convertToShares (s : VaultState) (assets : Nat) : Nat :=
  if s.totalShares = 0 ∨ s.totalAssets = 0 then assets
  else assets * s.totalShares / s.totalAssets

/-- `PoolVault.convertToAssets`: 0 when no shares exist, otherwise
`shares * totalAssets / totalShares` with floor division. -/
def convertToAssets (s : VaultState) (sh : Nat) : Nat :=
  if s.totalShares = 0 then 0
  else sh * s.totalAssets / s.totalShares

/-- `PoolVault.availableLiquidity`: `totalAssets - outstandingLoans`. -/
def availableLiquidity (s : VaultState) : Nat :=
  s.totalAssets - s.outstandingLoans

/-- `PoolVault.utilizationBps`: `outstandingLoans * 10000 / totalAssets`,
0 for an empty pool. -/
def utilizationBps (s : VaultState) : Nat :=
  if s.totalAssets = 0 then 0
  else s.outstandingLoans * 10000 / s.totalAssets

/-- Result of a successful `deposit`: the new state, the shares minted, and
the amount pulled from the caller by `safeTransferFrom`. -/
structure DepositResult where
  state : VaultState
  sharesOut : Nat
  pulledFromCaller : Nat

/-- `PoolVault.deposit(_assets, _receiver)` called by `caller`. -/
def deposit (s : VaultState) (caller assets receiver : Nat) : Option DepositResult :=
  if assets = 0 then none                      -- ZeroAmount
  else if receiver = 0 then none               -- ZeroAddress
  else
    let sharesOut := convertToShares s assets
    some {
      state := { s with
        shares := fun a => if a = receiver then s.shares a + sharesOut else s.shares a,
        totalShares := s.totalShares + sharesOut,
        totalAssets := s.totalAssets + assets },
      sharesOut := sharesOut,
      pulledFromCaller := assets }

/-- Result of a successful `withdraw`: the new state, the shares burned, and
the amount paid out to the receiver by `safeTransfer`. -/
structure WithdrawResult where
  state : VaultState
  sharesBurned : Nat
  paidToReceiver : Nat

/-- `PoolVault.withdraw(_assets, _receiver, _owner)` called by `caller`.
The guard `s.totalShares < sharesBurned` is the checked subtraction
`totalShares -= sharesBurned` (it can never fire on states whose share map
sums to `totalShares`, but Solidity would revert there). -/
def withdraw (s : VaultState) (caller assets receiver owner : Nat) :
    Option WithdrawResult :=
  if assets = 0 then none                              -- ZeroAmount
  else if receiver = 0 then none                       -- ZeroAddress
  else if availableLiquidity s < assets then none      -- InsufficientLiquidity
  else
    let sharesBurned := convertToShares s assets
    if caller ≠ owner then none                        -- InsufficientShares (no allowance)
    else if s.shares owner < sharesBurned then none    -- InsufficientShares
    else if s.totalShares < sharesBurned then none     -- checked subtraction
    else some {
      state := { s with
        shares := fun a => if a = owner then s.shares a - sharesBurned else s.shares a,
        totalShares := s.totalShares - sharesBurned,
        totalAssets := s.totalAssets - assets },
      sharesBurned := sharesBurned,
      paidToReceiver := assets }

/-- Result of a successful `fundLoan`: the new state and the amount sent to
the borrower by `safeTransfer`. -/
structure FundLoanResult where
  state : VaultState
  paidToBorrower : Nat

/-- `PoolVault.fundLoan(_loanId, _borrower, _amount)` called by `caller`;
guarded by the `onlyLoanManager` modifier. -/
def fundLoan (s : VaultState) (caller loanId borrower amount : Nat) :
    Option FundLoanResult :=
  if caller ≠ s.loanManager then none                  -- NotLoanManager
  else if amount = 0 then none                         -- ZeroAmount
  else if availableLiquidity s < amount then none      -- InsufficientLiquidity
  else if borrower = 0 then none                       -- ZeroAddress
  else some {
    state := { s with outstandingLoans := s.outstandingLoans + amount },
    paidToBorrower := amount }

/-- `PoolVault.receiveRepayment(_loanId, _principalPortion, _interestPortion)`
called by `caller`; guarded by `onlyLoanManager`.  The guard
`s.outstandingLoans < principalPortion` is the checked subtraction
`outstandingLoans -= _principalPortion`. -/
def receiveRepayment (s : VaultState) (caller loanId principalPortion interestPortion : Nat) :
    Option VaultState :=
  if caller ≠ s.loanManager then none                          -- NotLoanManager
  else if s.outstandingLoans < principalPortion then none      -- checked subtraction
  else some { s with
    outstandingLoans := s.outstandingLoans - principalPortion,
    totalAssets := s.totalAssets + interestPortion }

/-- `PoolVault.setLoanManager(_loanManager)` called by `caller`;
`onlyOwner`, one-time only. -/
def setLoanManager (s : VaultState) (caller lm : Addr) : Option VaultState :=
  if caller ≠ s.owner then none                -- onlyOwner
  else if s.loanManagerSet then none           -- LoanManagerAlreadySet
  else if lm = 0 then none                     -- ZeroAddress
  else some { s with loanManager := lm, loanManagerSet := true }

/-- One external call to the vault, tagged with the caller identity. -/
inductive VaultOp where
  | deposit (caller assets receiver : Nat)
  | withdraw (caller assets receiver owner : Nat)
  | fundLoan (caller loanId borrower amount : Nat)
  | receiveRepayment (caller loanId principalPortion interestPortion : Nat)
  | setLoanManager (caller lm : Nat)

/-- State transition of the vault under one external call (`none` = revert,
state unchanged). -/
def vaultStep (s : VaultState) : VaultOp → Option VaultState
  | .deposit c a r => (deposit s c a r).map (·.state)
  | .withdraw c a r o => (withdraw s c a r o).map (·.state)
  | .fundLoan c l b a => (fundLoan s c l b a).map (·.state)
  | .receiveRepayment c l p i => receiveRepayment s c l p i
  | .setLoanManager c lm => setLoanManager s c lm

/-- Vault state right after the constructor: everything zero, loan manager
unset, `owner` as given. -/
def initialVault (owner : Addr) : VaultState :=
  { totalShares := 0
    totalAssets := 0
    outstandingLoans := 0
    shares := fun _ => 0
    loanManager := 0
    loanManagerSet := false
    owner := owner }

/-- States reachable from a freshly constructed vault through any sequence of
external calls. -/
inductive VaultReachable : VaultState → Prop where
  | init (owner : Addr) : VaultReachable (initialVault owner)
  | step {s s' : VaultState} (op : VaultOp) :
      VaultReachable s → vaultStep s op = some s' → VaultReachable s'

/-! ## LoanManager (contracts/LoanManager.sol) -/

/-- `365 days` in Solidity. -/
def SECONDS_PER_YEAR : Nat := 365 * 86400

/-- Basis-point denominator. -/
def BPS_DENOMINATOR : Nat := 10000

/-- The `Loan` struct of `LoanManager`. -/
structure Loan where
  borrower : Addr
  principal : Nat
  principalRepaid : Nat
  interestPaid : Nat
  aprBps : Nat
  startTime : Nat
  duration : Nat
  lastPaymentTime : Nat
  metadataHash : Nat
  active : Bool
  disbursed : Bool

/-- `LoanManager.accruedInterest`: 0 when not disbursed, not active or fully
repaid; otherwise linear interest on the remaining principal since the last
payment, with floor division.  `now` is `block.timestamp`. -/
def accruedInterest (loan : Loan) (now : Nat) : Nat :=
  if ¬loan.disbursed ∨ ¬loan.active then 0
  else
    let remainingPrincipal := loan.principal - loan.principalRepaid
    if remainingPrincipal = 0 then 0
    else
      let elapsed := now - loan.lastPaymentTime
      remainingPrincipal * loan.aprBps * elapsed / (BPS_DENOMINATOR * SECONDS_PER_YEAR)

/-- `LoanManager.totalOwed`: remaining principal plus accrued interest. -/
def totalOwed (loan : Loan) (now : Nat) : Nat :=
  loan.principal - loan.principalRepaid + accruedInterest loan now

/-- Result of a successful `repay`: the updated loan, the computed split, the
amount pulled from the payer by `safeTransferFrom`, and the outgoing
transfers / vault notification. -/
structure RepayResult where
  loan : Loan
  interestPortion : Nat
  principalPortion : Nat
  agentFee : Nat
  pulledFromPayer : Nat
  feeToTreasury : Nat
  amountToVault : Nat
  principalToVault : Nat
  interestToVault : Nat

/-- `LoanManager.repay(_loanId, _amount)` acting on one loan record.
`now` is `block.timestamp`, `agentFeeBps` the manager's fee configuration.
The guards `now < loan.lastPaymentTime` and
`loan.principal < loan.principalRepaid` are the Solidity ^0.8 checked
subtractions inside `accruedInterest` and the split computation (they never
fire on loans the contract itself produced). -/
def repay (loan : Loan) (now amount agentFeeBps : Nat) : Option RepayResult :=
  if amount = 0 then none                           -- ZeroAmount
  else if loan.borrower = 0 then none               -- LoanNotFound
  else if ¬loan.active then none                    -- LoanNotActive
  else if ¬loan.disbursed then none                 -- LoanNotDisbursed
  else if now < loan.lastPaymentTime then none      -- checked subtraction
  else if loan.principal < loan.principalRepaid then none  -- checked subtraction
  else
    let interestDue := accruedInterest loan now
    let remainingPrincipal := loan.principal - loan.principalRepaid
    -- Interest-first waterfall with the principal portion capped
    let interestPortion := if amount ≤ interestDue then amount else interestDue
    let principalPortion :=
      if amount ≤ interestDue then 0
      else if amount - interestDue > remainingPrincipal then remainingPrincipal
      else amount - interestDue
    let agentFee :=
      if interestPortion > 0 ∧ agentFeeBps > 0
      then interestPortion * agentFeeBps / BPS_DENOMINATOR
      else 0
    let actualPayment := interestPortion + principalPortion
    some {
      loan := { loan with
        principalRepaid := loan.principalRepaid + principalPortion,
        interestPaid := loan.interestPaid + interestPortion,
        lastPaymentTime := now },
      interestPortion := interestPortion,
      principalPortion := principalPortion,
      agentFee := agentFee,
      pulledFromPayer := actualPayment,
      feeToTreasury := agentFee,
      amountToVault := actualPayment - agentFee,
      principalToVault := principalPortion,
      interestToVault := interestPortion - agentFee }

/-! ## RiskRules (contracts/RiskRules.sol) -/

/-- Configuration state of the `RiskRules` contract.  `verifier` is the
address of the verification oracle (`0` = unset); the oracle's answers are
passed separately as a function. -/
structure RiskConfig where
  maxBorrowerBps : Nat
  maxUtilizationBps : Nat
  maxLoanDuration : Nat
  minAprBps : Nat
  maxAprBps : Nat
  minLoanAmount : Nat
  maxLoanAmount : Nat
  requireVerifiedBorrower : Bool
  verifier : Addr

/-- `RiskRules.validateNewLoan`, transcribed check by check from the source.
`isVerified` is the verification oracle `verifier.isVerified`. -/
def validateNewLoan (cfg : RiskConfig) (isVerified : Addr → Bool)
    (borrower principal duration aprBps poolAssets poolOutstanding : Nat) :
    Bool × String :=
  if cfg.requireVerifiedBorrower ∧ cfg.verifier ≠ 0 ∧ ¬isVerified borrower then
    (false, "Borrower not verified")
  else if principal < cfg.minLoanAmount then
    (false, "Loan amount below minimum")
  else if principal > cfg.maxLoanAmount then
    (false, "Loan amount above maximum")
  else if poolAssets > 0 ∧ principal > poolAssets * cfg.maxBorrowerBps / 10000 then
    (false, "Exceeds borrower cap")
  else if poolAssets > 0 ∧ (poolOutstanding + principal) * 10000 / poolAssets > cfg.maxUtilizationBps then
    (false, "Exceeds utilization cap")
  else if duration > cfg.maxLoanDuration then
    (false, "Duration exceeds maximum")
  else if duration = 0 then
    (false, "Duration cannot be zero")
  else if aprBps < cfg.minAprBps then
    (false, "APR below minimum")
  else if aprBps > cfg.maxAprBps then
    (false, "APR above maximum")
  else (true, "")

/-! ## Theorems -/

/-- C3: `accruedInterest` returns 0 if the loan is not disbursed, not active,
or has remaining principal 0; otherwise it is
`floor(remainingPrincipal * aprBps * (now - lastPaymentTime) / (10000 * secondsPerYear))`
with a 365-day year (31536000 seconds), i.e. simple linear interest on the
remaining principal measured from the most recent payment timestamp. -/
theorem accruedInterest_matches_spec (loan : Loan) (now : Nat)
    (h : loan.lastPaymentTime ≤ now) :
    accruedInterest loan now =
      if loan.disbursed = true ∧ loan.active = true ∧
          loan.principalRepaid < loan.principal then
        (loan.principal - loan.principalRepaid) * loan.aprBps *
          (now - loan.lastPaymentTime) / (10000 * 31536000)
      else 0 := by
  have hden : BPS_DENOMINATOR * SECONDS_PER_YEAR = 10000 * 31536000 := by
    norm_num [BPS_DENOMINATOR, SECONDS_PER_YEAR]
  cases hd : loan.disbursed with
  | false => simp [accruedInterest, hd]
  | true =>
    cases ha : loan.active with
    | false => simp [accruedInterest, hd, ha]
    | true =>
      by_cases hr : loan.principal - loan.principalRepaid = 0
      · have hnl : ¬loan.principalRepaid < loan.principal := by omega
        simp [accruedInterest, hd, ha, hr, hnl]
      · have hl : loan.principalRepaid < loan.principal := by omega
        simp [accruedInterest, hd, ha, hr, hl, hden]

/-- Loan used by the concrete witnesses for the repayment claims:
1000 units of principal at 12% APR, disbursed at time 0. -/
def sampleLoan : Loan :=
  { borrower := 1, principal := 1000, principalRepaid := 0, interestPaid := 0,
    aprBps := 1200, startTime := 0, duration := 1000000, lastPaymentTime := 0,
    metadataHash := 0, active := true, disbursed := true }

/-- Witness for C3 at a concrete loan and timestamp. -/
theorem accruedInterest_matches_spec_witness :
    accruedInterest sampleLoan 31536000 =
      if sampleLoan.disbursed = true ∧ sampleLoan.active = true ∧
          sampleLoan.principalRepaid < sampleLoan.principal then
        (sampleLoan.principal - sampleLoan.principalRepaid) * sampleLoan.aprBps *
          (31536000 - sampleLoan.lastPaymentTime) / (10000 * 31536000)
      else 0 :=
  accruedInterest_matches_spec sampleLoan 31536000 (by decide)

/-- C2: on a successful `repay` the split follows the interest-first
waterfall — if `amount ≤ interestDue` the whole payment is interest and no
principal is repaid, otherwise the interest portion is exactly `interestDue`
and the principal portion is `min (amount - interestDue) remainingPrincipal`
— and the amount pulled from the payer is exactly
`interestPortion + principalPortion`, never the excess. -/
theorem repay_split_correct (loan : Loan) (now amount agentFeeBps : Nat)
    (r : RepayResult) (h : repay loan now amount agentFeeBps = some r) :
    (amount ≤ accruedInterest loan now →
      r.interestPortion = amount ∧ r.principalPortion = 0) ∧
    (accruedInterest loan now < amount →
      r.interestPortion = accruedInterest loan now ∧
      r.principalPortion = min (amount - accruedInterest loan now)
        (loan.principal - loan.principalRepaid)) ∧
    r.pulledFromPayer = r.interestPortion + r.principalPortion := by
  unfold repay at h
  split_ifs at h
  simp only [Option.some.injEq] at h
  subst h
  dsimp only
  refine ⟨fun hle => ?_, fun hlt => ?_, ?_⟩
  · rw [if_pos hle, if_pos hle]; exact ⟨rfl, rfl⟩
  · rw [if_neg (by omega), if_neg (by omega)]
    refine ⟨rfl, ?_⟩
    split_ifs with hcap <;> omega
  · rfl

/-- Loan record after `repay sampleLoan 31536000 200 1000`. -/
def sampleLoanAfter200 : Loan :=
  { borrower := 1, principal := 1000, principalRepaid := 80, interestPaid := 120,
    aprBps := 1200, startTime := 0, duration := 1000000,
    lastPaymentTime := 31536000, metadataHash := 0, active := true,
    disbursed := true }

/-- Result record of `repay sampleLoan 31536000 200 1000`: after one year
the accrued interest is 120, so a 200-unit payment splits 120/80. -/
def repayResult200 : RepayResult :=
  { loan := sampleLoanAfter200,
    interestPortion := 120, principalPortion := 80, agentFee := 12,
    pulledFromPayer := 200, feeToTreasury := 12, amountToVault := 188,
    principalToVault := 80, interestToVault := 108 }

/-- Witness for C2 at a concrete loan, time and payment amount. -/
theorem repay_split_correct_witness :
    (200 ≤ accruedInterest sampleLoan 31536000 →
      repayResult200.interestPortion = 200 ∧ repayResult200.principalPortion = 0) ∧
    (accruedInterest sampleLoan 31536000 < 200 →
      repayResult200.interestPortion = accruedInterest sampleLoan 31536000 ∧
      repayResult200.principalPortion = min (200 - accruedInterest sampleLoan 31536000)
        (sampleLoan.principal - sampleLoan.principalRepaid)) ∧
    repayResult200.pulledFromPayer =
      repayResult200.interestPortion + repayResult200.principalPortion :=
  repay_split_correct sampleLoan 31536000 200 1000 repayResult200 (by rfl)

/-- C9: a successful repayment strictly smaller than the interest due is
booked entirely as interest, leaves `principalRepaid` unchanged, resets
`lastPaymentTime` to `now`, and immediately afterwards `accruedInterest` is 0
— the unpaid remainder of the previously accrued interest is forgiven. -/
theorem repay_small_payment_forgives_interest (loan : Loan)
    (now amount agentFeeBps : Nat) (r : RepayResult)
    (h : repay loan now amount agentFeeBps = some r)
    (hlt : amount < accruedInterest loan now) :
    r.interestPortion = amount ∧ r.principalPortion = 0 ∧
    r.loan.principalRepaid = loan.principalRepaid ∧
    r.loan.interestPaid = loan.interestPaid + amount ∧
    r.loan.lastPaymentTime = now ∧
    accruedInterest r.loan now = 0 := by
  unfold repay at h
  split_ifs at h
  simp only [Option.some.injEq] at h
  subst h
  dsimp only
  rw [if_pos (by omega), if_pos (by omega)]
  refine ⟨rfl, rfl, by simp, rfl, rfl, ?_⟩
  unfold accruedInterest
  split_ifs <;> simp

/-- Loan record after `repay sampleLoan 31536000 50 1000`. -/
def sampleLoanAfter50 : Loan :=
  { borrower := 1, principal := 1000, principalRepaid := 0, interestPaid := 50,
    aprBps := 1200, startTime := 0, duration := 1000000,
    lastPaymentTime := 31536000, metadataHash := 0, active := true,
    disbursed := true }

/-- Result record of `repay sampleLoan 31536000 50 1000`: the 50-unit payment
is below the 120 units of interest due, so it is all interest. -/
def repayResult50 : RepayResult :=
  { loan := sampleLoanAfter50,
    interestPortion := 50, principalPortion := 0, agentFee := 5,
    pulledFromPayer := 50, feeToTreasury := 5, amountToVault := 45,
    principalToVault := 0, interestToVault := 45 }

/-- Witness for C9 at a concrete loan, time and payment amount. -/
theorem repay_small_payment_forgives_interest_witness :
    repayResult50.interestPortion = 50 ∧ repayResult50.principalPortion = 0 ∧
    repayResult50.loan.principalRepaid = sampleLoan.principalRepaid ∧
    repayResult50.loan.interestPaid = sampleLoan.interestPaid + 50 ∧
    repayResult50.loan.lastPaymentTime = 31536000 ∧
    accruedInterest repayResult50.loan 31536000 = 0 :=
  repay_small_payment_forgives_interest sampleLoan 31536000 50 1000
    repayResult50 (by rfl) (by decide)

/-- The claim-side description of the validator: six ordered checks —
(1) borrower verification when required and an oracle is configured,
(2) principal within `[minLoanAmount, maxLoanAmount]`,
(3) when the pool is non-empty, the borrower concentration cap,
(4) when the pool is non-empty, the projected utilization cap,
(5) duration nonzero and at most `maxLoanDuration`,
(6) `aprBps` within `[minAprBps, maxAprBps]` —
with the first failing check determining the returned reason. -/
def validateNewLoanSpec (cfg : RiskConfig) (isVerified : Addr → Bool)
    (borrower principal duration aprBps poolAssets poolOutstanding : Nat) :
    Bool × String :=
  if cfg.requireVerifiedBorrower ∧ cfg.verifier ≠ 0 ∧ ¬isVerified borrower then
    (false, "Borrower not verified")
  else if ¬(cfg.minLoanAmount ≤ principal ∧ principal ≤ cfg.maxLoanAmount) then
    (false, if principal < cfg.minLoanAmount then "Loan amount below minimum"
            else "Loan amount above maximum")
  else if 0 < poolAssets ∧ ¬(principal ≤ poolAssets * cfg.maxBorrowerBps / 10000) then
    (false, "Exceeds borrower cap")
  else if 0 < poolAssets ∧
      ¬((poolOutstanding + principal) * 10000 / poolAssets ≤ cfg.maxUtilizationBps) then
    (false, "Exceeds utilization cap")
  else if ¬(duration ≠ 0 ∧ duration ≤ cfg.maxLoanDuration) then
    (false, if duration = 0 then "Duration cannot be zero"
            else "Duration exceeds maximum")
  else if ¬(cfg.minAprBps ≤ aprBps ∧ aprBps ≤ cfg.maxAprBps) then
    (false, if aprBps < cfg.minAprBps then "APR below minimum"
            else "APR above maximum")
  else (true, "")

set_option maxHeartbeats 1600000 in
/-- C4: `validateNewLoan` evaluates its checks in the fixed order of the
spec, returns `(false, reason)` with the reason of the first failing check
(in particular the specific "APR below minimum" reason for a too-low APR),
and `(true, "")` when all checks pass. -/
theorem validateNewLoan_matches_spec (cfg : RiskConfig) (isVerified : Addr → Bool)
    (borrower principal duration aprBps poolAssets poolOutstanding : Nat) :
    validateNewLoan cfg isVerified borrower principal duration aprBps
        poolAssets poolOutstanding =
      validateNewLoanSpec cfg isVerified borrower principal duration aprBps
        poolAssets poolOutstanding := by
  unfold validateNewLoan validateNewLoanSpec
  generalize poolAssets * cfg.maxBorrowerBps / 10000 = cap
  generalize (poolOutstanding + principal) * 10000 / poolAssets = u
  split_ifs <;> first | rfl | omega

/-- C8: a successful `fundLoan` increases `outstandingLoans` by exactly the
funded amount while `totalAssets`, `totalShares` and every depositor's share
balance are unchanged; the amount transferred to the borrower is the funded
amount. -/
theorem fundLoan_frame (s : VaultState) (caller loanId borrower amount : Nat)
    (r : FundLoanResult) (h : fundLoan s caller loanId borrower amount = some r) :
    r.state.outstandingLoans = s.outstandingLoans + amount ∧
    r.state.totalAssets = s.totalAssets ∧
    r.state.totalShares = s.totalShares ∧
    (∀ a, r.state.shares a = s.shares a) ∧
    r.paidToBorrower = amount := by
  unfold fundLoan at h
  split_ifs at h
  simp only [Option.some.injEq] at h
  subst h
  exact ⟨rfl, rfl, rfl, fun a => rfl, rfl⟩

/-- Vault state used by the witnesses for the loan-manager claims: a pool of
1000 assets / 1000 shares held by depositor 1, with the loan manager bound
to address 5 and owner 9. -/
def boundVault : VaultState :=
  { totalShares := 1000
    totalAssets := 1000
    outstandingLoans := 0
    shares := fun a => if a = 1 then 1000 else 0
    loanManager := 5
    loanManagerSet := true
    owner := 9 }

/-- Witness for C8: the bound loan manager funds a 100-unit loan out of
`boundVault`. -/
theorem fundLoan_frame_witness :
    (fundLoan boundVault 5 1 7 100).elim False (fun r =>
      r.state.outstandingLoans = boundVault.outstandingLoans + 100 ∧
      r.state.totalAssets = boundVault.totalAssets ∧
      r.state.totalShares = boundVault.totalShares ∧
      (∀ a, r.state.shares a = boundVault.shares a) ∧
      r.paidToBorrower = 100) := by
  exact fundLoan_frame boundVault 5 1 7 100 _ rfl

/-- C7: the loan-manager binding is write-once and gates `fundLoan` and
`receiveRepayment`: once `loanManagerSet` holds, every further
`setLoanManager` call reverts; no vault operation ever changes the bound
`loanManager` afterwards; and `fundLoan` or `receiveRepayment` from any
caller other than the bound loan manager reverts (reverts leave the state
unchanged by construction of the model). -/
theorem loanManager_binding_write_once :
    (∀ (s : VaultState) (caller lm : Nat), s.loanManagerSet = true →
      setLoanManager s caller lm = none) ∧
    (∀ (s s' : VaultState) (op : VaultOp), vaultStep s op = some s' →
      s.loanManagerSet = true →
      s'.loanManagerSet = true ∧ s'.loanManager = s.loanManager) ∧
    (∀ (s : VaultState) (caller loanId borrower amount : Nat),
      caller ≠ s.loanManager →
      fundLoan s caller loanId borrower amount = none) ∧
    (∀ (s : VaultState) (caller loanId p i : Nat), caller ≠ s.loanManager →
      receiveRepayment s caller loanId p i = none) := by
  refine ⟨?_, ?_, ?_, ?_⟩
  · intro s caller lm hset
    unfold setLoanManager
    split_ifs <;> simp_all
  · intro s s' op h hset
    cases op with
    | deposit c a r =>
      simp only [vaultStep, Option.map_eq_some'] at h
      obtain ⟨r', hr', hst⟩ := h
      subst hst
      unfold deposit at hr'
      split_ifs at hr'
      simp only [Option.some.injEq] at hr'
      subst hr'; exact ⟨hset, rfl⟩
    | withdraw c a r o =>
      simp only [vaultStep, Option.map_eq_some'] at h
      obtain ⟨r', hr', hst⟩ := h
      subst hst
      unfold withdraw at hr'
      dsimp only at hr'
      split_ifs at hr'
      simp only [Option.some.injEq] at hr'
      subst hr'; exact ⟨hset, rfl⟩
    | fundLoan c l b a =>
      simp only [vaultStep, Option.map_eq_some'] at h
      obtain ⟨r', hr', hst⟩ := h
      subst hst
      unfold fundLoan at hr'
      split_ifs at hr'
      simp only [Option.some.injEq] at hr'
      subst hr'; exact ⟨hset, rfl⟩
    | receiveRepayment c l p i =>
      simp only [vaultStep] at h
      unfold receiveRepayment at h
      split_ifs at h
      simp only [Option.some.injEq] at h
      subst h; exact ⟨hset, rfl⟩
    | setLoanManager c lm =>
      simp only [vaultStep] at h
      unfold setLoanManager at h
      split_ifs at h
  · intro s caller loanId borrower amount hne
    unfold fundLoan
    rw [if_pos hne]
  · intro s caller loanId p i hne
    unfold receiveRepayment
    rw [if_pos hne]

/-- Witness for C7 on `boundVault`: a repeated `setLoanManager` reverts, a
deposit preserves the binding, and unauthorized `fundLoan` /
`receiveRepayment` calls revert. -/
theorem loanManager_binding_write_once_witness :
    setLoanManager boundVault 9 6 = none ∧
    (∀ s', vaultStep boundVault (VaultOp.deposit 2 100 2) = some s' →
      s'.loanManagerSet = true ∧ s'.loanManager = boundVault.loanManager) ∧
    fundLoan boundVault 3 1 7 10 = none ∧
    receiveRepayment boundVault 3 1 0 0 = none :=
  ⟨loanManager_binding_write_once.1 boundVault 9 6 rfl,
   fun s' h => loanManager_binding_write_once.2.1 boundVault s' _ h rfl,
   loanManager_binding_write_once.2.2.1 boundVault 3 1 7 10 (by decide),
   loanManager_binding_write_once.2.2.2 boundVault 3 1 0 0 (by decide)⟩

/-- C10: on a non-empty pool, a positive deposit small enough that
`amount * totalShares / totalAssets` floors to 0 succeeds anyway: the full
amount is pulled from the caller and credited to `totalAssets`, but 0 shares
are minted, so the receiver's share balance and `totalShares` are unchanged
— the deposit is silently donated to the existing shareholders. -/
theorem deposit_zero_shares_donation (s : VaultState) (caller amount receiver : Nat)
    (hS : 0 < s.totalShares) (hA : 0 < s.totalAssets) (hamt : 0 < amount)
    (hrcv : receiver ≠ 0)
    (hfloor : amount * s.totalShares / s.totalAssets = 0) :
    ∃ r, deposit s caller amount receiver = some r ∧
      r.sharesOut = 0 ∧
      r.pulledFromCaller = amount ∧
      r.state.totalAssets = s.totalAssets + amount ∧
      r.state.totalShares = s.totalShares ∧
      (∀ a, r.state.shares a = s.shares a) := by
  have hsh : convertToShares s amount = 0 := by
    unfold convertToShares
    rw [if_neg (by omega)]
    exact hfloor
  unfold deposit
  rw [if_neg (by omega), if_neg hrcv]
  dsimp only
  simp only [hsh, Nat.add_zero, ite_self]
  exact ⟨_, rfl, rfl, rfl, rfl, rfl, fun a => rfl⟩

/-- Witness for C10: depositing 5 into a pool of 10 assets / 1 share mints
`5 * 1 / 10 = 0` shares. -/
def tinyPool : VaultState :=
  { totalShares := 1
    totalAssets := 10
    outstandingLoans := 0
    shares := fun a => if a = 1 then 1 else 0
    loanManager := 0
    loanManagerSet := false
    owner := 9 }

/-- Witness for C10 at the concrete pool `tinyPool`. -/
theorem deposit_zero_shares_donation_witness :
    ∃ r, deposit tinyPool 3 5 3 = some r ∧
      r.sharesOut = 0 ∧
      r.pulledFromCaller = 5 ∧
      r.state.totalAssets = tinyPool.totalAssets + 5 ∧
      r.state.totalShares = tinyPool.totalShares ∧
      (∀ a, r.state.shares a = tinyPool.shares a) :=
  deposit_zero_shares_donation tinyPool 3 5 3 (by decide) (by decide)
    (by decide) (by decide) (by decide)

/-- C1: in every state reachable from the initial vault state through any
sequence of external calls (deposit, withdraw, fundLoan, receiveRepayment,
setLoanManager — in particular with arbitrary `receiveRepayment` splits,
which subsumes the splits `LoanManager.repay` produces),
`totalAssets >= outstandingLoans` holds, so
`availableLiquidity = totalAssets - outstandingLoans` never underflows. -/
theorem vault_totalAssets_ge_outstandingLoans (s : VaultState)
    (h : VaultReachable s) : s.outstandingLoans ≤ s.totalAssets := by
  induction h with
  | init owner => exact Nat.le_refl 0
  | step op hr hstep ih =>
    cases op with
    | deposit c a r =>
      simp only [vaultStep, Option.map_eq_some'] at hstep
      obtain ⟨r', hr', hst⟩ := hstep
      subst hst
      unfold deposit at hr'
      split_ifs at hr'
      simp only [Option.some.injEq] at hr'
      subst hr'
      dsimp only
      omega
    | withdraw c a r o =>
      simp only [vaultStep, Option.map_eq_some'] at hstep
      obtain ⟨r', hr', hst⟩ := hstep
      subst hst
      unfold withdraw at hr'
      dsimp only at hr'
      split_ifs at hr' with h1 h2 h3 h4 h5 h6
      simp only [Option.some.injEq] at hr'
      subst hr'
      unfold availableLiquidity at h3
      dsimp only
      omega
    | fundLoan c l b a =>
      simp only [vaultStep, Option.map_eq_some'] at hstep
      obtain ⟨r', hr', hst⟩ := hstep
      subst hst
      unfold fundLoan at hr'
      split_ifs at hr' with h1 h2 h3 h4
      simp only [Option.some.injEq] at hr'
      subst hr'
      unfold availableLiquidity at h3
      dsimp only
      omega
    | receiveRepayment c l p i =>
      simp only [vaultStep] at hstep
      unfold receiveRepayment at hstep
      split_ifs at hstep with h1 h2
      simp only [Option.some.injEq] at hstep
      subst hstep
      dsimp only
      omega
    | setLoanManager c lm =>
      simp only [vaultStep] at hstep
      unfold setLoanManager at hstep
      split_ifs at hstep
      simp only [Option.some.injEq] at hstep
      subst hstep
      exact ih

/-- Witness for C1 at the concrete reachable initial state. -/
theorem vault_totalAssets_ge_outstandingLoans_witness :
    (initialVault 9).outstandingLoans ≤ (initialVault 9).totalAssets :=
  vault_totalAssets_ge_outstandingLoans (initialVault 9) (VaultReachable.init 9)

/-- Vault used by the C5 counterexample and witness: depositor 1 holds the
single share of a pool with 3 assets, so one share is worth 3. -/
def cexVault : VaultState :=
  { totalShares := 1
    totalAssets := 3
    outstandingLoans := 0
    shares := fun a => if a = 1 then 1 else 0
    loanManager := 0
    loanManagerSet := false
    owner := 9 }

/-- C5 counterexample: in `cexVault`, depositor 1's share is worth 3.  Party
2 (a party other than depositor 1) withdraws 2 assets while holding 0 shares:
`sharesBurned = 2 * 1 / 3 = 0`, the call succeeds, and the share price drops
from 3 to 1 — the price decreased as a side effect of someone else's action,
contradicting the claim. -/
theorem sharePrice_drops_under_other_party_withdraw :
    convertToAssets cexVault 1 = 3 ∧
    (vaultStep cexVault (VaultOp.withdraw 2 2 2 2)).map
        (fun s => convertToAssets s 1) = some 1 ∧
    (1 : Nat) < 3 := by decide

/-- Division fact behind the deposit case of the amended C5: issuing
`x * S / A` fresh shares against `x` fresh assets cannot lower the (floored)
per-share asset value `A / S`. -/
theorem sharePrice_le_after_deposit (S A x : Nat) (hS : S ≠ 0) (hA : A ≠ 0) :
    A / S ≤ (A + x) / (S + x * S / A) := by
  have hq : A / S * S ≤ A := Nat.div_mul_le_self A S
  have hb : A / S * (x * S / A) ≤ x := by
    calc A / S * (x * S / A) ≤ A * (x * S) / (S * A) :=
          Nat.div_mul_div_le A S (x * S) A
      _ = x * (S * A) / (S * A) := by ring_nf
      _ = x := Nat.mul_div_left x (Nat.pos_of_ne_zero (Nat.mul_ne_zero hS hA))
  have hpos : 0 < S + x * S / A :=
    Nat.lt_of_lt_of_le (Nat.pos_of_ne_zero hS) (Nat.le_add_right _ _)
  rw [Nat.le_div_iff_mul_le hpos]
  calc A / S * (S + x * S / A) = A / S * S + A / S * (x * S / A) := by ring
    _ ≤ A + x := Nat.add_le_add hq hb

/-- C5 amended: the share price `convertToAssets(1)` never decreases under
`deposit`, `fundLoan`, `receiveRepayment` or `setLoanManager`, by any party;
it CAN decrease under `withdraw` — even one performed by a party other than
the observing depositor — because `sharesBurned` is rounded down (see the
counterexample). -/
theorem sharePrice_nondecreasing_except_withdraw (s s' : VaultState)
    (op : VaultOp) (hstep : vaultStep s op = some s')
    (hnw : ∀ c a r o, op ≠ VaultOp.withdraw c a r o) :
    convertToAssets s 1 ≤ convertToAssets s' 1 := by
  cases op with
  | withdraw c a r o => exact absurd rfl (hnw c a r o)
  | deposit c a r =>
    simp only [vaultStep, Option.map_eq_some'] at hstep
    obtain ⟨r', hr', hst⟩ := hstep
    subst hst
    unfold deposit at hr'
    split_ifs at hr'
    simp only [Option.some.injEq] at hr'
    subst hr'
    by_cases hS : s.totalShares = 0
    · unfold convertToAssets
      rw [if_pos hS]
      exact Nat.zero_le _
    · by_cases hA : s.totalAssets = 0
      · unfold convertToAssets
        rw [if_neg hS, hA]
        simp
      · have hshares : convertToShares s a =
            a * s.totalShares / s.totalAssets := by
          unfold convertToShares
          rw [if_neg (by tauto)]
        unfold convertToAssets
        dsimp only
        rw [hshares]
        have hpos : s.totalShares + a * s.totalShares / s.totalAssets ≠ 0 :=
          fun hc => hS (Nat.eq_zero_of_add_eq_zero_right hc)
        rw [if_neg hS, if_neg hpos, one_mul, one_mul]
        exact sharePrice_le_after_deposit s.totalShares s.totalAssets a hS hA
  | fundLoan c l b a =>
    simp only [vaultStep, Option.map_eq_some'] at hstep
    obtain ⟨r', hr', hst⟩ := hstep
    subst hst
    unfold fundLoan at hr'
    split_ifs at hr'
    simp only [Option.some.injEq] at hr'
    subst hr'
    exact Nat.le_refl _
  | receiveRepayment c l p i =>
    simp only [vaultStep] at hstep
    unfold receiveRepayment at hstep
    split_ifs at hstep
    simp only [Option.some.injEq] at hstep
    subst hstep
    unfold convertToAssets
    dsimp only
    split_ifs with hS
    · exact Nat.le_refl 0
    · exact Nat.div_le_div_right (by omega)
  | setLoanManager c lm =>
    simp only [vaultStep] at hstep
    unfold setLoanManager at hstep
    split_ifs at hstep
    simp only [Option.some.injEq] at hstep
    subst hstep
    exact Nat.le_refl _

/-- Vault state produced by `vaultStep cexVault (deposit 2 3 2)`: party 2
deposits 3 assets into `cexVault` and receives `3 * 1 / 3 = 1` share. -/
def cexVaultAfterDeposit : VaultState :=
  { totalShares := 2
    totalAssets := 6
    outstandingLoans := 0
    shares := fun a => if a = 2 then (if a = 1 then 1 else 0) + 1
                       else (if a = 1 then 1 else 0)
    loanManager := 0
    loanManagerSet := false
    owner := 9 }

/-- Witness for the amended C5 at a concrete deposit step. -/
theorem sharePrice_nondecreasing_except_withdraw_witness :
    convertToAssets cexVault 1 ≤ convertToAssets cexVaultAfterDeposit 1 :=
  sharePrice_nondecreasing_except_withdraw cexVault cexVaultAfterDeposit
    (VaultOp.deposit 2 3 2) (by rfl) (fun c a r o h => VaultOp.noConfusion h)

/-- Pool used by the C6 counterexample and witness: existing depositor 1
holds 2 shares of a pool with 3 assets. -/
def cexPool : VaultState :=
  { totalShares := 2
    totalAssets := 3
    outstandingLoans := 0
    shares := fun a => if a = 1 then 2 else 0
    loanManager := 0
    loanManagerSet := false
    owner := 9 }

/-- C6 counterexample: user 2 deposits `X = 2` into `cexPool` and receives
`convertToShares(2) = 1` share (pool becomes 5 assets / 3 shares); the
immediate withdrawal of `convertToAssets(1) = 1` succeeds but burns
`floor(1 * 3 / 5) = 0` shares while paying out 1 asset, and the user still
holds their full 1 share afterwards.  Burning 0 shares for a positive payout
means the withdrawal rounding favored the user: a pool-favoring rounding
would require `sharesBurned * totalAssets >= assets * totalShares`, but
`0 * 5 < 1 * 3`.  This contradicts the claim that rounding favors the pool,
never the user, on both directions. -/
theorem withdraw_rounding_favors_user_cex :
    ((deposit cexPool 2 2 2).bind (fun r =>
        (withdraw r.state 2 (convertToAssets r.state r.sharesOut) 2 2).map
          (fun w => (w.sharesBurned, w.paidToReceiver, w.state.shares 2,
                     r.state.totalShares, r.state.totalAssets)))) =
      some (0, 1, 1, 3, 5) ∧
    0 * 5 < 1 * 3 := by decide

/-- C6 amended: depositing `X > 0` into a non-empty pool issues
`sharesOut = floor(X * totalShares / totalAssets)` shares, whose value at the
pre-deposit ratio is at most `X` (deposit-side rounding favors the pool), and
the immediate round-trip withdrawal amount
`convertToAssets(convertToShares(X))` is at most `X` — the depositor never
gets back more than deposited.  The withdrawal-side share burn, however,
rounds down in the withdrawer's favor, not the pool's (see the
counterexample). -/
theorem deposit_roundtrip_bounded (s : VaultState) (caller X receiver : Nat)
    (hS : 0 < s.totalShares) (hA : 0 < s.totalAssets) (hX : 0 < X)
    (hrcv : receiver ≠ 0) :
    ∃ r, deposit s caller X receiver = some r ∧
      r.sharesOut * s.totalAssets ≤ X * s.totalShares ∧
      convertToAssets r.state r.sharesOut ≤ X := by
  have hsh : convertToShares s X = X * s.totalShares / s.totalAssets := by
    unfold convertToShares
    rw [if_neg (by omega)]
  unfold deposit
  rw [if_neg (by omega), if_neg hrcv]
  dsimp only
  rw [hsh]
  refine ⟨_, rfl, Nat.div_mul_le_self _ _, ?_⟩
  unfold convertToAssets
  dsimp only
  have hSne : s.totalShares ≠ 0 := by omega
  rw [if_neg (show s.totalShares + X * s.totalShares / s.totalAssets ≠ 0 from
    fun hc => hSne (Nat.eq_zero_of_add_eq_zero_right hc))]
  have hb : X * s.totalShares / s.totalAssets * s.totalAssets ≤
      X * s.totalShares := Nat.div_mul_le_self _ _
  have h1 : X * s.totalShares / s.totalAssets * (s.totalAssets + X) ≤
      X * (s.totalShares + X * s.totalShares / s.totalAssets) := by
    have hcomm : X * s.totalShares / s.totalAssets * X =
        X * (X * s.totalShares / s.totalAssets) := Nat.mul_comm _ _
    calc X * s.totalShares / s.totalAssets * (s.totalAssets + X)
        = X * s.totalShares / s.totalAssets * s.totalAssets +
          X * s.totalShares / s.totalAssets * X := by ring
      _ ≤ X * s.totalShares + X * (X * s.totalShares / s.totalAssets) :=
          Nat.add_le_add hb (Nat.le_of_eq hcomm)
      _ = X * (s.totalShares + X * s.totalShares / s.totalAssets) := by ring
  calc X * s.totalShares / s.totalAssets * (s.totalAssets + X) /
        (s.totalShares + X * s.totalShares / s.totalAssets)
      ≤ X * (s.totalShares + X * s.totalShares / s.totalAssets) /
        (s.totalShares + X * s.totalShares / s.totalAssets) :=
        Nat.div_le_div_right h1
    _ = X := Nat.mul_div_left X (Nat.lt_of_lt_of_le hS (Nat.le_add_right _ _))

/-- Witness for the amended C6 at the concrete pool `cexPool`. -/
theorem deposit_roundtrip_bounded_witness :
    ∃ r, deposit cexPool 2 2 2 = some r ∧
      r.sharesOut * cexPool.totalAssets ≤ 2 * cexPool.totalShares ∧
      convertToAssets r.state r.sharesOut ≤ 2 :=
  deposit_roundtrip_bounded cexPool 2 2 2 (by decide) (by decide) (by decide)
    (by decide)

end Clenja
